import Mathlib

/-!
Verification of the ko_tts engine registry and synthesis cache.

This file gives a shallow embedding of the two core modules of the
repository and proves (or refutes) the specification claims about them:

* `src/ko_tts/server/tts_engine.py` — the `KoreanTTSEngine` class with its
  md5-based cache key (`_cache_key`), memory/disk cache lookup
  (`_get_cached`) and store (`_set_cache`).
* `src/ko_tts/engines/registry.py` — the `EngineRegistry` class
  (`get_available_engines`, `get_best_engine`, `set_active_engine`,
  `get_active_engine`, `synthesize`) together with the melo/edge engine
  lifecycle from `src/ko_tts/engines/melo.py` (`check_available`,
  `initialize`, `synthesize`).

Python dicts are modeled as insertion-ordered association lists, Python
`bytes` as `List Nat` (byte values), machine integers as `Nat` with
explicit `% 2 ^ 32` where the md5 arithmetic overflows, and raised Python
exceptions as `Except` values.
-/

/-! ### MD5 (model of Python's hashlib.md5(...).hexdigest())

`_cache_key` feeds the UTF-8 bytes of `f"{text}|{voice}|{speed}"` to
`hashlib.md5` and uses the lowercase hex digest.  The full MD5 algorithm
(RFC 1321) is embedded below over `Nat` with explicit reduction mod
`2 ^ 32`, so that the cache key is a closed, salt-free function of its
input bytes. -/

def byte_hex (b : Nat) : String :=
  String.mk [Nat.digitChar (b / 16 % 16), Nat.digitChar (b % 16)]

/-- One 32-bit word of the digest, printed little-endian byte by byte. -/
def word_hex_le (w : Nat) : String :=
  byte_hex (w % 256) ++ byte_hex (w / 256 % 256) ++
    byte_hex (w / 65536 % 256) ++ byte_hex (w / 16777216 % 256)

def mask32 : Nat := 4294967295

def rotl32 (x n : Nat) : Nat :=
  (x * 2 ^ (n % 32) + x / 2 ^ (32 - n % 32)) % 2 ^ 32

/-- The 64 MD5 sine-derived constants of RFC 1321. -/
def md5K : List Nat :=
  [0xd76aa478, 0xe8c7b756, 0x242070db, 0xc1bdceee,
   0xf57c0faf, 0x4787c62a, 0xa8304613, 0xfd469501,
   0x698098d8, 0x8b44f7af, 0xffff5bb1, 0x895cd7be,
   0x6b901122, 0xfd987193, 0xa679438e, 0x49b40821,
   0xf61e2562, 0xc040b340, 0x265e5a51, 0xe9b6c7aa,
   0xd62f105d, 0x02441453, 0xd8a1e681, 0xe7d3fbc8,
   0x21e1cde6, 0xc33707d6, 0xf4d50d87, 0x455a14ed,
   0xa9e3e905, 0xfcefa3f8, 0x676f02d9, 0x8d2a4c8a,
   0xfffa3942, 0x8771f681, 0x6d9d6122, 0xfde5380c,
   0xa4beea44, 0x4bdecfa9, 0xf6bb4b60, 0xbebfbc70,
   0x289b7ec6, 0xeaa127fa, 0xd4ef3085, 0x04881d05,
   0xd9d4d039, 0xe6db99e5, 0x1fa27cf8, 0xc4ac5665,
   0xf4292244, 0x432aff97, 0xab9423a7, 0xfc93a039,
   0x655b59c3, 0x8f0ccc92, 0xffeff47d, 0x85845dd1,
   0x6fa87e4f, 0xfe2ce6e0, 0xa3014314, 0x4e0811a1,
   0xf7537e82, 0xbd3af235, 0x2ad7d2bb, 0xeb86d391]

/-- The per-round left-rotation amounts of RFC 1321. -/
def md5S : List Nat :=
  [7, 12, 17, 22, 7, 12, 17, 22, 7, 12, 17, 22, 7, 12, 17, 22,
   5, 9, 14, 20, 5, 9, 14, 20, 5, 9, 14, 20, 5, 9, 14, 20,
   4, 11, 16, 23, 4, 11, 16, 23, 4, 11, 16, 23, 4, 11, 16, 23,
   6, 10, 15, 21, 6, 10, 15, 21, 6, 10, 15, 21, 6, 10, 15, 21]

/-- The round-dependent boolean mixing function of MD5. -/
def md5F (i b c d : Nat) : Nat :=
  if i < 16 then Nat.lor (Nat.land b c) (Nat.land (Nat.xor b mask32) d)
  else if i < 32 then Nat.lor (Nat.land d b) (Nat.land (Nat.xor d mask32) c)
  else if i < 48 then Nat.xor (Nat.xor b c) d
  else Nat.xor c (Nat.lor b (Nat.xor d mask32))

/-- The round-dependent message-word index of MD5. -/
def md5G (i : Nat) : Nat :=
  if i < 16 then i
  else if i < 32 then (5 * i + 1) % 16
  else if i < 48 then (3 * i + 5) % 16
  else 7 * i % 16

structure MD5Digest where
  a : Nat
  b : Nat
  c : Nat
  d : Nat

/-- Word `i` of a 64-byte block, assembled little-endian. -/
def md5Word (blk : List Nat) (i : Nat) : Nat :=
  blk.getD (4 * i) 0 + 256 * blk.getD (4 * i + 1) 0 +
    65536 * blk.getD (4 * i + 2) 0 + 16777216 * blk.getD (4 * i + 3) 0

def md5Step (blk : List Nat) (st : MD5Digest) (i : Nat) : MD5Digest :=
  let f := (md5F i st.b st.c st.d + st.a + md5K.getD i 0 + md5Word blk (md5G i)) % 2 ^ 32
  { a := st.d, b := (st.b + rotl32 f (md5S.getD i 0)) % 2 ^ 32, c := st.b, d := st.c }

def md5Compress (st : MD5Digest) (blk : List Nat) : MD5Digest :=
  let r := (List.range 64).foldl (md5Step blk) st
  { a := (st.a + r.a) % 2 ^ 32, b := (st.b + r.b) % 2 ^ 32,
    c := (st.c + r.c) % 2 ^ 32, d := (st.d + r.d) % 2 ^ 32 }

/-- RFC 1321 padding: a `0x80` byte, zeros up to 56 mod 64, then the
original bit length as 8 little-endian bytes. -/
def md5Pad (msg : List Nat) : List Nat :=
  let bitLen := msg.length * 8 % 2 ^ 64
  let zeros := (119 - msg.length % 64) % 64
  msg ++ 128 :: List.replicate zeros 0 ++
    (List.range 8).map (fun i => bitLen / 2 ^ (8 * i) % 256)

/-- Split a byte list into 64-byte blocks; the first argument is fuel
(always instantiated with the list length, which bounds the recursion). -/
def chunk64 : Nat → List Nat → List (List Nat)
  | 0, _ => []
  | _ + 1, [] => []
  | n + 1, bs => bs.take 64 :: chunk64 n (bs.drop 64)

def md5Init : MD5Digest :=
  { a := 0x67452301, b := 0xefcdab89, c := 0x98badcfe, d := 0x10325476 }

def md5_hex (msg : List Nat) : String :=
  let padded := md5Pad msg
  let final := (chunk64 padded.length padded).foldl md5Compress md5Init
  word_hex_le final.a ++ word_hex_le final.b ++ word_hex_le final.c ++ word_hex_le final.d

/-- UTF-8 encoding of a string as byte values, modeling Python's
`str.encode()`. -/
def str_bytes (s : String) : List Nat :=
  s.data.flatMap (fun c => (String.utf8EncodeChar c).map (fun b => b.toNat))

/-- Python's `str(float)` formatting used inside the f-string of
`_cache_key`; a fixed function of the float, never inverted or evaluated
by any proof. -/
def float_str (x : Float) : String := toString x

/-! ### Python dicts as insertion-ordered association lists

`KoreanTTSEngine._cache` is a `dict[str, bytes]` and the disk cache is a
directory of files keyed by `key + ".wav"`; both are modeled as
association lists with the two dict primitives below (`d[k] = v`
overwrites in place or appends, `d.get(k)` / file lookup returns the
entry for `k`). -/

def lookupAssoc {α : Type} (k : String) : List (String × α) → Option α
  | [] => none
  | (k₂, v) :: rest => if k₂ = k then some v else lookupAssoc k rest

def updateAssoc {α : Type} (k : String) (v : α) : List (String × α) → List (String × α)
  | [] => [(k, v)]
  | (k₂, v₂) :: rest => if k₂ = k then (k, v) :: rest else (k₂, v₂) :: updateAssoc k v rest

theorem lookupAssoc_updateAssoc_self {α : Type} (k : String) (v : α)
    (l : List (String × α)) : lookupAssoc k (updateAssoc k v l) = some v := by
  induction l with
  | nil => simp [updateAssoc, lookupAssoc]
  | cons p rest ih =>
    by_cases h : p.1 = k
    · simp [updateAssoc, lookupAssoc, h]
    · simp [updateAssoc, lookupAssoc, h, ih]

theorem lookupAssoc_updateAssoc_ne {α : Type} {k₁ k : String} (h : k₁ ≠ k) (v : α)
    (l : List (String × α)) : lookupAssoc k₁ (updateAssoc k v l) = lookupAssoc k₁ l := by
  have hk : ¬ k = k₁ := Ne.symm h
  induction l with
  | nil => simp [updateAssoc, lookupAssoc, hk]
  | cons p rest ih =>
    by_cases h₂ : p.1 = k
    · have h₃ : ¬ p.1 = k₁ := by rw [h₂]; exact hk
      simp [updateAssoc, lookupAssoc, h₂, hk, h₃]
    · by_cases h₃ : p.1 = k₁ <;> simp [updateAssoc, lookupAssoc, h, h₂, h₃, ih]

theorem isSome_lookupAssoc_updateAssoc {α : Type} {k₁ : String} {l : List (String × α)}
    (k : String) (v : α) (h : (lookupAssoc k₁ l).isSome = true) :
    (lookupAssoc k₁ (updateAssoc k v l)).isSome = true := by
  by_cases hk : k₁ = k
  · subst hk; rw [lookupAssoc_updateAssoc_self]; rfl
  · rw [lookupAssoc_updateAssoc_ne hk]; exact h

/-! ### The KoreanTTSEngine cache (src/ko_tts/server/tts_engine.py)

Only the fields that the cache operations and claims touch are modeled:
`config` (with `cache_enabled`), the in-memory `_cache` dict, and the
on-disk cache directory (`disk`, keyed by cache key).  The `_melo_model`,
`_cosyvoice_model` and backend lists do not participate in these three
methods. -/

structure TTSConfig where
  voice : String
  speed : Float
  sample_rate : Nat
  cache_enabled : Bool
  cache_dir : String

structure KoreanTTSEngine where
  config : TTSConfig
  cache : List (String × List Nat)
  disk : List (String × List Nat)
  inited : Bool
  available_backends : List String

/-- Model of `KoreanTTSEngine._cache_key`:
`hashlib.md5(f"{text}|{voice}|{speed}".encode()).hexdigest()`.
The method reads nothing from `self`. -/
def KoreanTTSEngine.cache_key (_self : KoreanTTSEngine) (text voice : String)
    (speed : Float) : String :=
  md5_hex (str_bytes (text ++ "|" ++ voice ++ "|" ++ float_str speed))

/-- Model of `KoreanTTSEngine._get_cached`: `None` when caching is
disabled, else the memory tier first, then the disk tier, with no
promotion from disk to memory. -/
def KoreanTTSEngine.get_cached (self : KoreanTTSEngine) (key : String) :
    Option (List Nat) :=
  if self.config.cache_enabled = false then none
  else
    match lookupAssoc key self.cache with
    | some audio => some audio
    | none => lookupAssoc key self.disk

/-- Model of `KoreanTTSEngine._set_cache`: a no-op when caching is
disabled; otherwise the memory dict accepts the entry only while it holds
fewer than 1000 entries, and the disk file is always written. -/
def KoreanTTSEngine.set_cache (self : KoreanTTSEngine) (key : String)
    (audio_bytes : List Nat) : KoreanTTSEngine :=
  if self.config.cache_enabled = false then self
  else
    { self with
      cache := if self.cache.length < 1000 then updateAssoc key audio_bytes self.cache
               else self.cache,
      disk := updateAssoc key audio_bytes self.disk }

/-! ### Engines and the registry (src/ko_tts/engines/)

An engine is modeled by its observable plugin behavior: `avail` is the
boolean half of `check_available()` (for melo the constant
`MELO_AVAILABLE`, for edge `EDGE_AVAILABLE`), `init_ok` says whether an
attempted model load succeeds, `synth_raises` is the exception (if any)
the vendor backend raises during actual synthesis, `produce` is the
black-box audio production, and `inited` is the mutable `_initialized`
flag.  The lifecycle methods below follow `MeloEngine` /
`EdgeEngine` (`melo.py`, `edge.py`), which share the same shape.

Raised Python exceptions are modeled as `Except.error` of a `PyErr`;
every call also returns the list of engine methods it invoked, so that
"no adapter method beyond checkAvailable is invoked"-style claims are
statable. -/

inductive PyErr where
  | runtimeError (msg : String)
  | valueError (msg : String)
  | exception (msg : String)
deriving DecidableEq

inductive MethodCall where
  | checkAvailable (engine : String)
  | initCall (engine : String)
  | synthCall (engine : String)
  | cleanupCall (engine : String)
deriving DecidableEq

/-- Model of `SynthesisResult` from `src/ko_tts/engines/base.py`. -/
structure SynthesisResult where
  audio_bytes : List Nat
  sample_rate : Nat
  duration : Float
  voice : String
  cached : Bool

structure Engine where
  name : String
  priority : Int
  avail : Bool
  avail_msg : String
  init_ok : Bool
  synth_raises : Option PyErr
  produce : String → String → Float → SynthesisResult
  inited : Bool

/-- Model of `MeloEngine.check_available` / `EdgeEngine.check_available`:
a pure inspection of the import-time availability constant.  (The
`_status` attribute they also assign is read only by `__repr__` and is
not modeled.) -/
def Engine.check_available (e : Engine) : Bool × String := (e.avail, e.avail_msg)

/-- Model of `MeloEngine.initialize` (lines 65-86 of melo.py): returns
`False` when the backend is not importable, otherwise loads the model,
setting `_initialized = True` and returning `True` on success and
returning `False` on an exception, without raising. -/
def Engine.run_init (e : Engine) : Bool × Engine :=
  if e.avail = false then (false, e)
  else if e.init_ok then (true, { e with inited := true })
  else (false, e)

/-- The message of the `RuntimeError` that `MeloEngine.synthesize` /
`EdgeEngine.synthesize` raise when their internal re-initialization
attempt fails. -/
def engine_init_fail_msg : String := "initialization failed / 초기화 실패"

/-- Model of `MeloEngine.synthesize` (and `EdgeEngine.synthesize`, same
shape): if `_initialized` is false it first calls `initialize()` itself
and raises `RuntimeError` when that fails; otherwise it runs the vendor
backend, which either raises or yields audio.  The returned list records
the engine methods invoked, the `synthesize` entry itself first. -/
def Engine.synth (e : Engine) (text voice : String) (speed : Float) :
    Except PyErr SynthesisResult × Engine × List MethodCall :=
  if e.inited = false then
    let r := e.run_init
    if r.1 = false then
      (Except.error (PyErr.runtimeError engine_init_fail_msg), r.2,
        [MethodCall.synthCall e.name, MethodCall.initCall e.name])
    else
      match e.synth_raises with
      | some err => (Except.error err, r.2,
          [MethodCall.synthCall e.name, MethodCall.initCall e.name])
      | none => (Except.ok (e.produce text voice speed), r.2,
          [MethodCall.synthCall e.name, MethodCall.initCall e.name])
  else
    match e.synth_raises with
    | some err => (Except.error err, e, [MethodCall.synthCall e.name])
    | none => (Except.ok (e.produce text voice speed), e, [MethodCall.synthCall e.name])

/-- Model of `EngineRegistry` state (registry.py lines 29-31): the
engines dict in insertion order, and `_active_engine`, represented by the
name of the engine object it references (names are the unique dict
keys). -/
structure EngineRegistry where
  engines : List Engine
  active : Option String

/-- Model of `EngineRegistry.get_engine`: `self._engines.get(name)`. -/
def EngineRegistry.get_engine (s : EngineRegistry) (name : String) : Option Engine :=
  s.engines.find? (fun e => e.name == name)

/-- Stable insertion of an engine into a list kept in descending
priority order; an engine is placed after every earlier engine of
greater **or equal** priority, which is exactly the tie behavior of
Python's stable `sorted(available, key=lambda e: -e.priority)`. -/
def insert_by_priority (e : Engine) : List Engine → List Engine
  | [] => [e]
  | f :: fs =>
    if f.priority ≤ e.priority then e :: f :: fs
    else f :: insert_by_priority e fs

def sort_by_priority (l : List Engine) : List Engine :=
  l.foldr insert_by_priority []

/-- Model of `EngineRegistry.get_available_engines` (registry.py lines
82-89): calls `check_available()` on every registered engine, keeps the
available ones, and returns them sorted by descending priority (stable
sort).  The second component records the engine methods invoked. -/
def EngineRegistry.get_available_engines (s : EngineRegistry) :
    List Engine × List MethodCall :=
  (sort_by_priority (s.engines.filter (fun e => (e.check_available).1)),
    s.engines.map (fun e => MethodCall.checkAvailable e.name))

/-- Model of `EngineRegistry.get_best_engine` (registry.py lines 91-94):
`available[0] if available else None`. -/
def EngineRegistry.get_best_engine (s : EngineRegistry) :
    Option Engine × List MethodCall :=
  let r := s.get_available_engines
  (r.1.head?, r.2)

/-- Model of `EngineRegistry.set_active_engine` (registry.py lines
96-108): `False` when the name is unregistered; otherwise it runs the
availability check and either returns `False` (plus a printed
diagnostic, not modeled) or records the engine as active and returns
`True`.  It never calls `initialize`. -/
def EngineRegistry.set_active_engine (s : EngineRegistry) (name : String) :
    Bool × EngineRegistry × List MethodCall :=
  match s.get_engine name with
  | none => (false, s, [])
  | some e =>
    if (e.check_available).1 = false then (false, s, [MethodCall.checkAvailable e.name])
    else (true, { s with active := some e.name }, [MethodCall.checkAvailable e.name])

/-- The message of the `RuntimeError` raised at registry.py line 118. -/
def no_engine_msg : String :=
  "No TTS engine available. Install one: pip install melotts / 엔진 없음"

/-- The auto-selection half of `get_active_engine` (registry.py lines
115-121): pick the best available engine, raising `RuntimeError` when
there is none, and cache the choice in `_active_engine`. -/
def EngineRegistry.auto_select (s : EngineRegistry) :
    Except PyErr Engine × EngineRegistry × List MethodCall :=
  let r := s.get_best_engine
  match r.1 with
  | none => (Except.error (PyErr.runtimeError no_engine_msg), s, r.2)
  | some best => (Except.ok best, { s with active := some best.name }, r.2)

/-- Model of `EngineRegistry.get_active_engine` (registry.py lines
110-121): when `_active_engine` is set it is returned as-is, with no
availability check and no engine-method call at all; only when unset
does the registry auto-select.  (The inner `none` branch cannot arise
from the source, where `_active_engine` always references a registered
engine object; it falls through to auto-selection.) -/
def EngineRegistry.get_active_engine (s : EngineRegistry) :
    Except PyErr Engine × EngineRegistry × List MethodCall :=
  match s.active with
  | some n =>
    match s.get_engine n with
    | some e => (Except.ok e, s, [])
    | none => s.auto_select
  | none => s.auto_select

/-- Writing a mutated engine object back: the source mutates the shared
object held by the `_engines` dict, modeled by replacing the entry of
the same name. -/
def EngineRegistry.update_engine (s : EngineRegistry) (e₂ : Engine) : EngineRegistry :=
  { s with engines := s.engines.map (fun e => if e.name == e₂.name then e₂ else e) }

/-- The body of `EngineRegistry.synthesize` after the target engine is
resolved (registry.py lines 148-152): `if not eng._initialized:
eng.initialize()` — the boolean result of `initialize()` is discarded —
then `return eng.synthesize(text, voice, speed)`. -/
def EngineRegistry.run_engine (s : EngineRegistry) (e : Engine) (text voice : String)
    (speed : Float) (log : List MethodCall) :
    Except PyErr SynthesisResult × EngineRegistry × List MethodCall :=
  if e.inited = false then
    let r := e.run_init
    let o := r.2.synth text voice speed
    (o.1, (s.update_engine r.2).update_engine o.2.1,
      log ++ MethodCall.initCall e.name :: o.2.2)
  else
    let o := e.synth text voice speed
    (o.1, s.update_engine o.2.1, log ++ o.2.2)

/-- Model of `EngineRegistry.synthesize` (registry.py lines 123-152):
resolve the engine (`ValueError` for an unknown explicit name, else the
active-engine resolution), then `run_engine`. -/
def EngineRegistry.synthesize (s : EngineRegistry) (text voice : String) (speed : Float)
    (engine : Option String) :
    Except PyErr SynthesisResult × EngineRegistry × List MethodCall :=
  match engine with
  | some n =>
    match s.get_engine n with
    | none => (Except.error (PyErr.valueError ("Unknown engine / 알 수 없는 엔진: " ++ n)), s, [])
    | some e => s.run_engine e text voice speed []
  | none =>
    match s.get_active_engine with
    | (Except.error err, s₂, log) => (Except.error err, s₂, log)
    | (Except.ok e, s₂, log) => s₂.run_engine e text voice speed log

/-! ### Cache claims (C7, C8, C9, C10) -/

/-- Claim C7: for every fixed triple (text, voiceId, speed) the
fingerprint `_cache_key` is a pure deterministic function of the triple:
it reads nothing from the engine instance (two arbitrary instances — in
particular instances from different process lifetimes, with different
configs and cache contents — agree), and the body
`md5_hex (str_bytes (text | voice | speed))` is a closed function with
no randomized-salt input, so the key, which is also the disk cache
filename, is stable across calls and process restarts. -/
theorem cache_key_deterministic :
    ∀ (e₁ e₂ : KoreanTTSEngine) (text voice : String) (speed : Float),
    e₁.cache_key text voice speed = e₂.cache_key text voice speed :=
  fun _ _ _ _ _ => rfl

/-- Claim C9: with caching enabled, `_set_cache` always writes the entry
to the disk tier; it writes to the memory tier exactly when the memory
dict currently holds fewer than 1000 entries (otherwise the memory tier
is left untouched); no existing memory entry is ever evicted; and the
write-through invariant — every key present in memory is present on
disk — is preserved. -/
theorem set_cache_spec :
    ∀ (st : KoreanTTSEngine) (key : String) (audio : List Nat),
    st.config.cache_enabled = true →
    lookupAssoc key (st.set_cache key audio).disk = some audio
    ∧ (st.cache.length < 1000 →
        (st.set_cache key audio).cache = updateAssoc key audio st.cache)
    ∧ (¬ st.cache.length < 1000 → (st.set_cache key audio).cache = st.cache)
    ∧ (∀ k, (lookupAssoc k st.cache).isSome = true →
        (lookupAssoc k (st.set_cache key audio).cache).isSome = true)
    ∧ ((∀ k, (lookupAssoc k st.cache).isSome = true →
          (lookupAssoc k st.disk).isSome = true) →
        ∀ k, (lookupAssoc k (st.set_cache key audio).cache).isSome = true →
          (lookupAssoc k (st.set_cache key audio).disk).isSome = true) := by
  intro st key audio hen
  have hd : (st.set_cache key audio).disk = updateAssoc key audio st.disk := by
    simp [KoreanTTSEngine.set_cache, hen]
  have hc : (st.set_cache key audio).cache =
      if st.cache.length < 1000 then updateAssoc key audio st.cache else st.cache := by
    simp [KoreanTTSEngine.set_cache, hen]
  refine ⟨?_, ?_, ?_, ?_, ?_⟩
  · rw [hd]; exact lookupAssoc_updateAssoc_self key audio st.disk
  · intro h; rw [hc, if_pos h]
  · intro h; rw [hc, if_neg h]
  · intro k hk
    rw [hc]
    by_cases h : st.cache.length < 1000
    · rw [if_pos h]; exact isSome_lookupAssoc_updateAssoc key audio hk
    · rw [if_neg h]; exact hk
  · intro hinv k hk
    rw [hd]
    rw [hc] at hk
    by_cases h : st.cache.length < 1000
    · rw [if_pos h] at hk
      by_cases hkk : k = key
      · subst hkk; rw [lookupAssoc_updateAssoc_self]; rfl
      · rw [lookupAssoc_updateAssoc_ne hkk] at hk
        exact isSome_lookupAssoc_updateAssoc key audio (hinv k hk)
    · rw [if_neg h] at hk
      exact isSome_lookupAssoc_updateAssoc key audio (hinv k hk)

/-- Witness for `set_cache_spec` at a concrete engine state. -/
def st_witness : KoreanTTSEngine :=
  { config := { voice := "KR", speed := 1.0, sample_rate := 24000,
                cache_enabled := true, cache_dir := "/app/audio_cache" },
    cache := [], disk := [], inited := false, available_backends := [] }

theorem set_cache_spec_witness :
    st_witness.config.cache_enabled = true
    ∧ lookupAssoc "k" (st_witness.set_cache "k" [1, 2]).disk = some [1, 2] :=
  ⟨rfl, (set_cache_spec st_witness "k" [1, 2] rfl).1⟩

/-- Claim C8 as amended: with caching enabled, a store followed by an
immediate lookup of the same key returns the stored bytes **provided**
the memory tier is below its 1000-entry capacity or the key is not
already present in the memory tier.  (When the memory tier is full and
already holds the key with different bytes, `_set_cache` only updates
disk while `_get_cached` still answers from memory, returning the stale
bytes — see `store_lookup_stale_memory_cex`.) -/
theorem store_then_lookup :
    ∀ (st : KoreanTTSEngine) (key : String) (audio : List Nat),
    st.config.cache_enabled = true →
    (st.cache.length < 1000 ∨ lookupAssoc key st.cache = none) →
    (st.set_cache key audio).get_cached key = some audio := by
  intro st key audio hen hpre
  have hd : (st.set_cache key audio).disk = updateAssoc key audio st.disk := by
    simp [KoreanTTSEngine.set_cache, hen]
  have hc : (st.set_cache key audio).cache =
      if st.cache.length < 1000 then updateAssoc key audio st.cache else st.cache := by
    simp [KoreanTTSEngine.set_cache, hen]
  have hcfg : (st.set_cache key audio).config = st.config := by
    simp [KoreanTTSEngine.set_cache, hen]
  unfold KoreanTTSEngine.get_cached
  rw [hcfg, hen, hd, hc]
  by_cases h : st.cache.length < 1000
  · rw [if_pos h, lookupAssoc_updateAssoc_self]
    simp
  · rw [if_neg h]
    have hnone : lookupAssoc key st.cache = none := hpre.resolve_left h
    rw [hnone, lookupAssoc_updateAssoc_self]
    simp

theorem store_then_lookup_witness :
    st_witness.config.cache_enabled = true
    ∧ st_witness.cache.length < 1000
    ∧ (st_witness.set_cache "k" [3, 4]).get_cached "k" = some [3, 4] :=
  ⟨rfl, by decide, store_then_lookup st_witness "k" [3, 4] rfl (Or.inl (by decide))⟩

/-- A memory tier at its 1000-entry capacity whose entry for "k" holds
stale bytes `[0]`: a pathological but directly constructible argument to
`_set_cache` / `_get_cached` as the claim quantifies over them. -/
def big_cache : List (String × List Nat) :=
  ("k", [0]) :: (List.range 999).map (fun i => (Nat.repr i, []))

def st_full : KoreanTTSEngine :=
  { config := { voice := "KR", speed := 1.0, sample_rate := 24000,
                cache_enabled := true, cache_dir := "/app/audio_cache" },
    cache := big_cache, disk := [], inited := false, available_backends := [] }

/-- Counterexample to claim C8 as stated ("regardless of whether the
memory tier is below or at capacity"): with caching enabled and the
memory tier at capacity 1000 holding stale bytes `[0]` under key "k",
storing `[7]` under "k" and immediately looking "k" up returns the stale
`[0]`, not the stored `[7]` — the store skipped memory (full) while the
lookup was served by memory. -/
theorem store_lookup_stale_memory_cex :
    st_full.config.cache_enabled = true
    ∧ st_full.cache.length = 1000
    ∧ (st_full.set_cache "k" [7]).get_cached "k" = some [0]
    ∧ (st_full.set_cache "k" [7]).get_cached "k" ≠ some [7] := by
  have hlen : st_full.cache.length = 1000 := by
    simp [st_full, big_cache]
  have hnotlt : ¬ big_cache.length < 1000 := by
    have h : big_cache.length = 1000 := by simp [big_cache]
    rw [h]; exact lt_irrefl 1000
  have hset : (st_full.set_cache "k" [7]).cache = st_full.cache := by
    simp [KoreanTTSEngine.set_cache, st_full, hnotlt]
  have hcfg : (st_full.set_cache "k" [7]).config = st_full.config := by
    simp [KoreanTTSEngine.set_cache, st_full]
  have hmem : lookupAssoc "k" st_full.cache = some [0] := by
    simp [st_full, big_cache, lookupAssoc]
  have hget : (st_full.set_cache "k" [7]).get_cached "k" = some [0] := by
    unfold KoreanTTSEngine.get_cached
    rw [hcfg, hset, hmem]
    simp [st_full]
  refine ⟨rfl, hlen, hget, ?_⟩
  rw [hget]
  decide

def st_fresh : KoreanTTSEngine :=
  { config := { voice := "KR", speed := 1.0, sample_rate := 24000,
                cache_enabled := true, cache_dir := "/app/audio_cache" },
    cache := [], disk := [], inited := false, available_backends := [] }

/-- Claim C10: the pre-hash encoding `f"{text}|{voice}|{speed}"` uses an
ambiguous separator, so the two distinct request triples
("a|b", "c", 1.0) and ("a", "b|c", 1.0) encode to the same string,
`_cache_key` assigns them the identical cache key, and the two
semantically different requests share one cache entry: after the first
request stores its audio `[9]`, a lookup under the second request's key
is served that same audio. -/
theorem cache_key_collision :
    (("a|b", "c") ≠ (("a", "b|c") : String × String))
    ∧ st_fresh.cache_key "a|b" "c" 1.0 = st_fresh.cache_key "a" "b|c" 1.0
    ∧ (st_fresh.set_cache (st_fresh.cache_key "a|b" "c" 1.0) [9]).get_cached
        (st_fresh.cache_key "a" "b|c" 1.0) = some [9] := by
  have hpre : ("a|b" ++ "|" ++ "c" ++ "|" : String) = "a" ++ "|" ++ "b|c" ++ "|" := by decide
  have hkey : st_fresh.cache_key "a|b" "c" 1.0 = st_fresh.cache_key "a" "b|c" 1.0 :=
    congrArg (fun z => md5_hex (str_bytes z)) (congrArg (fun w => w ++ float_str 1.0) hpre)
  refine ⟨by decide, hkey, ?_⟩
  rw [← hkey]
  have hstore : (st_fresh.set_cache (st_fresh.cache_key "a|b" "c" 1.0) [9]).cache =
      [(st_fresh.cache_key "a|b" "c" 1.0, [9])] := by
    simp [KoreanTTSEngine.set_cache, st_fresh, updateAssoc]
  have hcfg : (st_fresh.set_cache (st_fresh.cache_key "a|b" "c" 1.0) [9]).config =
      st_fresh.config := by
    simp [KoreanTTSEngine.set_cache, st_fresh]
  unfold KoreanTTSEngine.get_cached
  rw [hcfg, hstore]
  simp [st_fresh, lookupAssoc]

/-! ### Stable priority sort: helper lemmas for claim C2 -/

theorem insert_by_priority_perm (e : Engine) (l : List Engine) :
    (insert_by_priority e l).Perm (e :: l) := by
  induction l with
  | nil => exact List.Perm.refl _
  | cons f fs ih =>
    unfold insert_by_priority
    by_cases h : f.priority ≤ e.priority
    · rw [if_pos h]
    · rw [if_neg h]
      exact (ih.cons f).trans (List.Perm.swap e f fs)

theorem sort_by_priority_perm (l : List Engine) : (sort_by_priority l).Perm l := by
  induction l with
  | nil => exact List.Perm.refl _
  | cons x xs ih => exact (insert_by_priority_perm x (sort_by_priority xs)).trans (ih.cons x)

theorem insert_by_priority_pairwise {e : Engine} {l : List Engine}
    (h : l.Pairwise (fun a b => b.priority ≤ a.priority)) :
    (insert_by_priority e l).Pairwise (fun a b => b.priority ≤ a.priority) := by
  induction l with
  | nil => simp [insert_by_priority]
  | cons f fs ih =>
    rcases List.pairwise_cons.mp h with ⟨hf, hfs⟩
    unfold insert_by_priority
    by_cases hp : f.priority ≤ e.priority
    · rw [if_pos hp]
      refine List.Pairwise.cons ?_ h
      intro y hy
      rcases List.mem_cons.mp hy with rfl | hy₂
      · exact hp
      · exact le_trans (hf y hy₂) hp
    · rw [if_neg hp]
      refine List.Pairwise.cons ?_ (ih hfs)
      intro y hy
      rcases List.mem_cons.mp ((insert_by_priority_perm e fs).mem_iff.mp hy) with rfl | hy₂
      · exact le_of_lt (lt_of_not_le hp)
      · exact hf y hy₂

theorem sort_by_priority_pairwise (l : List Engine) :
    (sort_by_priority l).Pairwise (fun a b => b.priority ≤ a.priority) := by
  induction l with
  | nil => exact List.Pairwise.nil
  | cons x xs ih => exact insert_by_priority_pairwise ih

/-- Stability of the insertion: the engines of any fixed priority class
appear in the same order before and after inserting. -/
theorem filter_insert_by_priority (p : Int) (e : Engine) (l : List Engine) :
    (insert_by_priority e l).filter (fun x => x.priority == p)
      = (e :: l).filter (fun x => x.priority == p) := by
  induction l with
  | nil => rfl
  | cons f fs ih =>
    unfold insert_by_priority
    by_cases hp : f.priority ≤ e.priority
    · rw [if_pos hp]
    · rw [if_neg hp]
      by_cases he : e.priority = p
      · have hf : ¬ f.priority = p := by
          intro h₂
          exact hp (le_of_eq (by rw [h₂, he]))
        simp [List.filter_cons, he, hf, ih]
      · by_cases hf : f.priority = p <;> simp [List.filter_cons, he, hf, ih]

theorem filter_sort_by_priority (p : Int) (l : List Engine) :
    (sort_by_priority l).filter (fun x => x.priority == p)
      = l.filter (fun x => x.priority == p) := by
  induction l with
  | nil => rfl
  | cons x xs ih =>
    have hs : sort_by_priority (x :: xs)
        = insert_by_priority x (sort_by_priority xs) := rfl
    rw [hs, filter_insert_by_priority]
    by_cases hx : x.priority = p <;> simp [List.filter_cons, hx, ih]

/-! ### Concrete engine states used by the registry claims -/

/-- A black-box audio producer shared by the concrete test engines. -/
def produce_stub : String → String → Float → SynthesisResult :=
  fun _ voice _ =>
    { audio_bytes := [82, 73, 70, 70], sample_rate := 44100, duration := 1.0,
      voice := voice, cached := false }

def eng_p10 : Engine :=
  { name := "low", priority := 10, avail := true, avail_msg := "installed",
    init_ok := true, synth_raises := none, produce := produce_stub, inited := false }

def eng_p80 : Engine :=
  { name := "high", priority := 80, avail := true, avail_msg := "installed",
    init_ok := true, synth_raises := none, produce := produce_stub, inited := false }

def eng_p20 : Engine :=
  { name := "mid", priority := 20, avail := true, avail_msg := "installed",
    init_ok := true, synth_raises := none, produce := produce_stub, inited := false }

def reg_prio : EngineRegistry := { engines := [eng_p10, eng_p80, eng_p20], active := none }

/-! ### Registry claims (C1 — C6) -/

/-- Claim C2: `get_available_engines` returns exactly the registered
engines whose `check_available()` returns true (a permutation of the
availability filter), sorted by descending priority, with equal-priority
engines kept in registration order (each priority class of the output
equals that class of the registration-ordered filter); and on the
concrete registry with available priorities [10, 80, 20], both
`get_best_engine` and the active-engine resolution select the
priority-80 engine. -/
theorem get_available_engines_sorted_spec :
    (∀ s : EngineRegistry,
      (s.get_available_engines).1.Perm
          (s.engines.filter (fun e => (e.check_available).1))
      ∧ (s.get_available_engines).1.Pairwise (fun a b => b.priority ≤ a.priority)
      ∧ ∀ p : Int,
          (s.get_available_engines).1.filter (fun e => e.priority == p)
            = (s.engines.filter (fun e => (e.check_available).1)).filter
                (fun e => e.priority == p))
    ∧ (reg_prio.get_best_engine).1 = some eng_p80
    ∧ (reg_prio.get_active_engine).1 = Except.ok eng_p80 := by
  refine ⟨fun s => ⟨?_, ?_, fun p => ?_⟩, ?_, ?_⟩
  · exact sort_by_priority_perm _
  · exact sort_by_priority_pairwise _
  · exact filter_sort_by_priority p _
  · rfl
  · rfl

def eng_stale : Engine :=
  { name := "stale", priority := 80, avail := false, avail_msg := "backend gone",
    init_ok := false, synth_raises := none, produce := produce_stub, inited := true }

def eng_fresh : Engine :=
  { name := "fresh", priority := 10, avail := true, avail_msg := "installed",
    init_ok := true, synth_raises := none, produce := produce_stub, inited := false }

def reg_stale : EngineRegistry :=
  { engines := [eng_stale, eng_fresh], active := some "stale" }

/-- Counterexample to claim C1 as stated: in a registry whose chosen
active engine now fails its availability check while another engine is
available, `get_active_engine` still returns the stale engine — with no
`check_available` call at all (empty method log) — instead of
re-resolving to the highest-priority available engine. -/
theorem get_active_engine_stale_cex :
    reg_stale.get_active_engine = (Except.ok eng_stale, reg_stale, [])
    ∧ (eng_stale.check_available).1 = false
    ∧ (∃ e ∈ reg_stale.engines, (e.check_available).1 = true)
    ∧ eng_stale.name ≠ eng_fresh.name := by
  refine ⟨rfl, rfl, ⟨eng_fresh, ?_, rfl⟩, by decide⟩
  simp [reg_stale]

/-- Claim C1 as amended: once an active engine has been chosen,
`get_active_engine` returns it unconditionally — without re-running its
availability check (no engine method is invoked) and without
re-resolving — regardless of whether the engine is still available;
selection of the highest-priority available engine happens only on a
call made while no active engine is set. -/
theorem get_active_engine_sticky :
    ∀ (s : EngineRegistry) (n : String) (e : Engine),
    s.active = some n → s.get_engine n = some e →
    s.get_active_engine = (Except.ok e, s, []) := by
  intro s n e ha hg
  unfold EngineRegistry.get_active_engine
  rw [ha]
  simp [hg]

theorem get_active_engine_sticky_witness :
    reg_stale.active = some "stale"
    ∧ reg_stale.get_engine "stale" = some eng_stale
    ∧ reg_stale.get_active_engine = (Except.ok eng_stale, reg_stale, []) :=
  ⟨rfl, rfl, get_active_engine_sticky reg_stale "stale" eng_stale rfl rfl⟩

def eng_off₁ : Engine :=
  { name := "melo", priority := 80, avail := false, avail_msg := "not installed",
    init_ok := false, synth_raises := none, produce := produce_stub, inited := false }

def eng_off₂ : Engine :=
  { name := "edge", priority := 20, avail := false, avail_msg := "not installed",
    init_ok := false, synth_raises := none, produce := produce_stub, inited := false }

def reg_exhausted : EngineRegistry :=
  { engines := [eng_off₁, eng_off₂], active := none }

/-- Claim C3: with no active engine set and every registered engine
reporting unavailable, `synthesize` without an engine override fails
with the `NoEngineAvailable` RuntimeError of registry.py line 118, the
state is unchanged, and the method log shows `check_available` calls
only — no `initialize`, `synthesize` or `cleanup` reaches any engine. -/
theorem synthesize_no_engine_available :
    ∀ (s : EngineRegistry) (text voice : String) (speed : Float),
    s.active = none →
    (∀ e ∈ s.engines, (e.check_available).1 = false) →
    s.synthesize text voice speed none
      = (Except.error (PyErr.runtimeError no_engine_msg), s,
          s.engines.map (fun e => MethodCall.checkAvailable e.name))
    ∧ ∀ c ∈ s.engines.map (fun e => MethodCall.checkAvailable e.name),
        ∃ n, c = MethodCall.checkAvailable n := by
  intro s text voice speed ha hall
  have hfil : s.engines.filter (fun e => (e.check_available).1) = [] := by
    rw [List.filter_eq_nil_iff]
    intro e he
    rw [hall e he]
    exact Bool.false_ne_true
  have hauto : s.auto_select
      = (Except.error (PyErr.runtimeError no_engine_msg), s,
          s.engines.map (fun e => MethodCall.checkAvailable e.name)) := by
    unfold EngineRegistry.auto_select EngineRegistry.get_best_engine
      EngineRegistry.get_available_engines
    rw [hfil]
    rfl
  constructor
  · unfold EngineRegistry.synthesize EngineRegistry.get_active_engine
    rw [ha, hauto]
  · intro c hc
    rcases List.mem_map.mp hc with ⟨e, _, rfl⟩
    exact ⟨e.name, rfl⟩

theorem synthesize_no_engine_available_witness :
    reg_exhausted.active = none
    ∧ (∀ e ∈ reg_exhausted.engines, (e.check_available).1 = false)
    ∧ reg_exhausted.synthesize "안녕하세요" "KR" 1.0 none
        = (Except.error (PyErr.runtimeError no_engine_msg), reg_exhausted,
            [MethodCall.checkAvailable "melo", MethodCall.checkAvailable "edge"]) :=
  ⟨rfl, by decide,
    (synthesize_no_engine_available reg_exhausted "안녕하세요" "KR" 1.0 rfl (by decide)).1⟩

/-- Counterexample to claim C4 as stated: an unregistered id and a
registered-but-unavailable engine do **not** fail with distinct
`UnknownEngine` / `EngineUnavailable` errors — `set_active_engine`
returns the very same bare `False` in both cases. -/
theorem set_active_engine_indistinct_failures_cex :
    reg_exhausted.get_engine "nosuch" = none
    ∧ (eng_off₁.check_available).1 = false
    ∧ (reg_exhausted.set_active_engine "nosuch").1 = false
    ∧ (reg_exhausted.set_active_engine "melo").1 = false
    ∧ (reg_exhausted.set_active_engine "nosuch").1
        = (reg_exhausted.set_active_engine "melo").1 :=
  ⟨rfl, rfl, rfl, rfl, rfl⟩

/-- Claim C4 as amended: `set_active_engine` returns `False` when the id
is unregistered and equally returns `False` (after running the
availability check; the distinction surfaces only as a printed
diagnostic, not as a distinct error value) when the engine is registered
but unavailable; it returns `True` and records the engine as active when
the check passes; and in no case does it invoke any engine method other
than `check_available` — in particular it never calls `initialize`. -/
theorem set_active_engine_spec :
    ∀ (s : EngineRegistry) (n : String),
    (s.get_engine n = none → s.set_active_engine n = (false, s, []))
    ∧ (∀ e, s.get_engine n = some e → (e.check_available).1 = false →
        s.set_active_engine n = (false, s, [MethodCall.checkAvailable e.name]))
    ∧ (∀ e, s.get_engine n = some e → (e.check_available).1 = true →
        s.set_active_engine n
          = (true, { s with active := some e.name }, [MethodCall.checkAvailable e.name]))
    ∧ ∀ c ∈ (s.set_active_engine n).2.2, ∃ m, c = MethodCall.checkAvailable m := by
  intro s n
  refine ⟨?_, ?_, ?_, ?_⟩
  · intro h
    unfold EngineRegistry.set_active_engine
    simp [h]
  · intro e he hc
    unfold EngineRegistry.set_active_engine
    simp [he, hc]
  · intro e he hc
    unfold EngineRegistry.set_active_engine
    simp [he, hc]
  · intro c hc
    unfold EngineRegistry.set_active_engine at hc
    cases hknown : s.get_engine n with
    | none => rw [hknown] at hc; simp at hc
    | some e =>
      rw [hknown] at hc
      by_cases hav : (e.check_available).1 = false
      · simp [hav] at hc
        exact ⟨e.name, hc⟩
      · simp [hav] at hc
        exact ⟨e.name, hc⟩

theorem set_active_engine_spec_witness :
    reg_exhausted.get_engine "melo" = some eng_off₁
    ∧ (eng_off₁.check_available).1 = false
    ∧ reg_exhausted.set_active_engine "melo"
        = (false, reg_exhausted, [MethodCall.checkAvailable "melo"]) :=
  ⟨rfl, rfl, (set_active_engine_spec reg_exhausted "melo").2.1 eng_off₁ rfl rfl⟩

/-! Helper lemmas about the engine lifecycle. -/

theorem run_init_name (e : Engine) : (e.run_init).2.name = e.name := by
  unfold Engine.run_init
  by_cases h₁ : e.avail = false
  · simp [h₁]
  · by_cases h₂ : e.init_ok <;> simp [h₁, h₂]

theorem run_init_fail (e : Engine) (h : (e.run_init).1 = false) : (e.run_init).2 = e := by
  unfold Engine.run_init at h ⊢
  by_cases h₁ : e.avail = false
  · simp [h₁]
  · by_cases h₂ : e.init_ok
    · simp [h₁, h₂] at h
    · simp [h₁, h₂]

theorem synth_log_has_synthCall (e : Engine) (t v : String) (sp : Float) :
    MethodCall.synthCall e.name ∈ (e.synth t v sp).2.2 := by
  unfold Engine.synth
  by_cases hi : e.inited = false
  · by_cases hr : (e.run_init).1 = false
    · simp [hi, hr]
    · cases hs : e.synth_raises <;> simp [hi, hr, hs]
  · cases hs : e.synth_raises <;> simp [hi, hs]

def eng_initfail : Engine :=
  { name := "melo", priority := 80, avail := true, avail_msg := "installed",
    init_ok := false, synth_raises := none, produce := produce_stub, inited := false }

def reg_initfail : EngineRegistry := { engines := [eng_initfail], active := none }

/-- Counterexample to claim C5 as stated: with an available engine whose
`_initialized` flag is false and whose `initialize()` returns `False`,
the synthesis call does **not** stop with an `EngineInitializationFailed`
registry error — the registry discards the `False` (registry.py line
150) and still invokes the engine's `synthesize` (the `synthCall` entry
in the log), whose own internal re-initialization then raises the
engine-level RuntimeError; the engine's `initialize` even runs twice. -/
theorem synthesize_ignores_init_failure_cex :
    (eng_initfail.run_init).1 = false
    ∧ MethodCall.synthCall "melo" ∈ (reg_initfail.synthesize "안녕" "KR" 1.0 none).2.2
    ∧ (reg_initfail.synthesize "안녕" "KR" 1.0 none).1
        = Except.error (PyErr.runtimeError engine_init_fail_msg)
    ∧ (reg_initfail.synthesize "안녕" "KR" 1.0 none).2.2
        = [MethodCall.checkAvailable "melo", MethodCall.initCall "melo",
           MethodCall.synthCall "melo", MethodCall.initCall "melo"] :=
  ⟨rfl, by decide, rfl, rfl⟩

/-- Claim C5 as amended: when the resolved engine's `_initialized` flag
is false, the registry issues exactly one `initialize` call (the first
log entry) but ignores its boolean result and proceeds to invoke the
engine's `synthesize` in every case; a failed initialization therefore
surfaces not as a registry-level `EngineInitializationFailed` error but
as the RuntimeError raised inside the engine's own `synthesize` by its
internal re-initialization attempt. -/
theorem synthesize_init_flow :
    ∀ (s : EngineRegistry) (n : String) (e : Engine) (text voice : String) (speed : Float),
    s.get_engine n = some e → e.inited = false →
    (s.synthesize text voice speed (some n)).2.2.head?
        = some (MethodCall.initCall e.name)
    ∧ MethodCall.synthCall e.name ∈ (s.synthesize text voice speed (some n)).2.2
    ∧ ((e.run_init).1 = false →
        (s.synthesize text voice speed (some n)).1
          = Except.error (PyErr.runtimeError engine_init_fail_msg)) := by
  intro s n e text voice speed hg hi
  have hrun : s.synthesize text voice speed (some n) = s.run_engine e text voice speed [] := by
    unfold EngineRegistry.synthesize
    simp [hg]
  rw [hrun]
  unfold EngineRegistry.run_engine
  refine ⟨by simp [hi], ?_, ?_⟩
  · simp only [hi, if_true]
    have hmem := synth_log_has_synthCall (e.run_init).2 text voice speed
    rw [run_init_name] at hmem
    simp [List.mem_cons, hmem]
  · intro hfail
    simp only [hi, if_true]
    rw [run_init_fail e hfail]
    unfold Engine.synth
    simp [hi, hfail]

theorem synthesize_init_flow_witness :
    reg_initfail.get_engine "melo" = some eng_initfail
    ∧ eng_initfail.inited = false
    ∧ (eng_initfail.run_init).1 = false
    ∧ (reg_initfail.synthesize "x" "KR" 1.0 (some "melo")).2.2.head?
        = some (MethodCall.initCall "melo")
    ∧ (reg_initfail.synthesize "x" "KR" 1.0 (some "melo")).1
        = Except.error (PyErr.runtimeError engine_init_fail_msg) :=
  ⟨rfl, rfl, rfl,
    (synthesize_init_flow reg_initfail "melo" eng_initfail "x" "KR" 1.0 rfl rfl).1,
    (synthesize_init_flow reg_initfail "melo" eng_initfail "x" "KR" 1.0 rfl rfl).2.2 rfl⟩

def eng_boom : Engine :=
  { name := "boom", priority := 50, avail := true, avail_msg := "installed",
    init_ok := true, synth_raises := some (PyErr.exception "backend exploded"),
    produce := produce_stub, inited := true }

def reg_boom : EngineRegistry := { engines := [eng_boom], active := some "boom" }

/-- Counterexample to claim C6 as stated: an exception raised inside an
engine's `synthesize` escapes the registry's `synthesize` **unchanged** —
the registry result is literally the engine's own exception, not a
uniform `SynthesisFailure` wrapper (registry.py line 152 has no
try/except around the delegation). -/
theorem synthesize_unwrapped_error_cex :
    eng_boom.synth_raises = some (PyErr.exception "backend exploded")
    ∧ (reg_boom.synthesize "x" "KR" 1.0 none).1
        = Except.error (PyErr.exception "backend exploded") :=
  ⟨rfl, rfl⟩

/-- Claim C6 as amended: the registry performs no wrapping at all — an
exception raised by an (already initialized) engine's `synthesize`
propagates out of `EngineRegistry.synthesize` as exactly the same
exception value. -/
theorem synthesize_propagates_engine_error :
    ∀ (s : EngineRegistry) (n : String) (e : Engine) (err : PyErr)
      (text voice : String) (speed : Float),
    s.get_engine n = some e → e.inited = true → e.synth_raises = some err →
    (s.synthesize text voice speed (some n)).1 = Except.error err := by
  intro s n e err text voice speed hg hi hr
  have hrun : s.synthesize text voice speed (some n) = s.run_engine e text voice speed [] := by
    unfold EngineRegistry.synthesize
    simp [hg]
  rw [hrun]
  unfold EngineRegistry.run_engine
  simp only [hi]
  unfold Engine.synth
  simp [hi, hr]

theorem synthesize_propagates_engine_error_witness :
    reg_boom.get_engine "boom" = some eng_boom
    ∧ eng_boom.inited = true
    ∧ eng_boom.synth_raises = some (PyErr.exception "backend exploded")
    ∧ (reg_boom.synthesize "x" "KR" 1.0 (some "boom")).1
        = Except.error (PyErr.exception "backend exploded") :=
  ⟨rfl, rfl, rfl,
    synthesize_propagates_engine_error reg_boom "boom" eng_boom
      (PyErr.exception "backend exploded") "x" "KR" 1.0 rfl rfl rfl⟩
